import Mathlib

/-!
Shallow embedding of the NEO repository (src/models.py, src/extract.py,
src/write.py) together with spec-modelled pieces for code of the repository
that is not under src/ (helpers.py, the NEODatabase class).

Python values that flow through the constructors are modelled by the
first-order type `Value`; Python floats are modelled as `PyFloat` (either the
not-a-number sentinel or an exact rational), since every float that the code
manipulates is produced from decimal text or the nan sentinel. Exceptions are
modelled by `Except String`, the message carrying the exception class name.
-/

namespace NEO

/-- Model of a Python float as it occurs in this code base: either the
not-a-number sentinel `float("nan")` or a finite value, kept exact as a
rational (every finite float in the data originates from decimal text).
Infinities and the bit-level rounding of IEEE doubles are not modelled; no
claim depends on them. -/
inductive PyFloat where
  | nan : PyFloat
  | val : Rat → PyFloat
deriving DecidableEq

/-- Structured date-time as produced by the compact-format parser
(seconds are not part of the input format). -/
structure DateTime where
  year : Nat
  month : Nat
  day : Nat
  hour : Nat
  minute : Nat
deriving DecidableEq

/-- First-order model of the Python values that reach the constructors of
models.py: None, strings, floats, booleans and parsed date-times. -/
inductive Value where
  | vNone : Value
  | vStr : String → Value
  | vFloat : PyFloat → Value
  | vBool : Bool → Value
  | vDatetime : DateTime → Value
deriving DecidableEq

/-- Python truthiness of a `Value` (None and the empty string are falsy;
nan, nonzero floats, datetimes and nonempty strings are truthy). A rational
is zero exactly when its numerator is. -/
def truthy : Value → Bool
  | .vNone => false
  | .vStr s => !(s == "")
  | .vFloat .nan => true
  | .vFloat (.val q) => !(q.num == 0)
  | .vBool b => b
  | .vDatetime _ => true

/-- Decidable equality of `Except` results, used to evaluate the model on
concrete inputs. -/
instance {α β : Type} [DecidableEq α] [DecidableEq β] :
    DecidableEq (Except α β) := fun x y =>
  match x, y with
  | .ok a, .ok b =>
    if h : a = b then .isTrue (by rw [h])
    else .isFalse (by intro hc; cases hc; exact h rfl)
  | .error a, .error b =>
    if h : a = b then .isTrue (by rw [h])
    else .isFalse (by intro hc; cases hc; exact h rfl)
  | .ok _, .error _ => .isFalse (by intro hc; cases hc)
  | .error _, .ok _ => .isFalse (by intro hc; cases hc)

/-- A Python keyword-argument mapping / dict, modelled as an association
list with unique keys (lookup takes the first binding, update replaces it). -/
abbrev Info := List (String × Value)

/-- Model of `d[k]` as an optional lookup. -/
def dictFind (d : Info) (k : String) : Option Value :=
  (d.find? (fun kv => kv.1 == k)).map (fun kv => kv.2)

/-- Model of `d.get(k, default)`. -/
def dictGetD (d : Info) (k : String) (v : Value) : Value :=
  (dictFind d k).getD v

/-- Model of `d.get(k)` (default None). -/
def dictGet0 (d : Info) (k : String) : Value :=
  dictGetD d k .vNone

/-- Model of `d[k] = v`: replace the binding if the key exists, else append. -/
def dictSet (d : Info) (k : String) (v : Value) : Info :=
  if d.any (fun kv => kv.1 == k) then
    d.map (fun kv => if kv.1 == k then (kv.1, v) else kv)
  else d ++ [(k, v)]

/-- Model of the dict merge `\x7b**a, **b\x7d`: bindings of `b` win. -/
def dictMerge (a b : Info) : Info :=
  b.foldl (fun acc kv => dictSet acc kv.1 kv.2) a

/-- A single-quote character as a string (used by Python repr and messages). -/
def squote : String := String.singleton (Char.ofNat 39)

/-- Rendering of `type(v)` as Python prints it in error messages. -/
def pyTypeName : Value → String
  | .vNone => "<class " ++ squote ++ "NoneType" ++ squote ++ ">"
  | .vStr _ => "<class " ++ squote ++ "str" ++ squote ++ ">"
  | .vFloat _ => "<class " ++ squote ++ "float" ++ squote ++ ">"
  | .vBool _ => "<class " ++ squote ++ "bool" ++ squote ++ ">"
  | .vDatetime _ => "<class " ++ squote ++ "datetime.datetime" ++ squote ++ ">"

/-- Splitting a character list on a separator character, keeping empty
pieces, as Python str.split with an explicit separator does (structural
recursion so that concrete instances reduce in the kernel). -/
def splitChar (sep : Char) : List Char → List (List Char)
  | [] => [[]]
  | c :: cs =>
    let r := splitChar sep cs
    if c == sep then [] :: r
    else
      match r with
      | [] => [[c]]
      | h :: t => (c :: h) :: t

/-- Whitespace test used by the strip of the Python float parser. -/
def isSpaceChar (c : Char) : Bool :=
  c == Char.ofNat 32 || c == Char.ofNat 9 || c == Char.ofNat 10 || c == Char.ofNat 13

/-- Strip leading and trailing whitespace from a character list. -/
def trimChars (l : List Char) : List Char :=
  ((l.dropWhile isSpaceChar).reverse.dropWhile isSpaceChar).reverse

/-- ASCII lower-casing of one character. -/
def lowerChar (c : Char) : Char :=
  if 65 ≤ c.toNat ∧ c.toNat ≤ 90 then Char.ofNat (c.toNat + 32) else c

/-- True when every character of the list is a decimal digit. -/
def allDigitChars (l : List Char) : Bool :=
  l.all Char.isDigit

/-- Numeric value of a digit character list. -/
def digitsToNat (l : List Char) : Nat :=
  l.foldl (fun acc c => acc * 10 + (c.toNat - 48)) 0

/-- Core of the parse performed by the Python builtin `float` on stripped
text: an optional sign, then digits with an optional decimal point, or the
word nan in any case. The finite result num/10^frac is built with
`Rat.divInt`. Scientific notation and infinities are not modelled (no such
text occurs in this code base or in the data fields under test). -/
def pyFloatOfChars (t : List Char) : Option PyFloat :=
  let (neg, u) :=
    match t with
    | c :: cs =>
      if c == Char.ofNat 45 then (true, cs)
      else if c == Char.ofNat 43 then (false, cs)
      else (false, t)
    | [] => (false, t)
  if u.map lowerChar == [Char.ofNat 110, Char.ofNat 97, Char.ofNat 110] then
    some .nan
  else
    match splitChar (Char.ofNat 46) u with
    | [a] =>
      if a ≠ [] ∧ allDigitChars a then
        some (.val (Rat.divInt (if neg then -(digitsToNat a : Int) else (digitsToNat a : Int)) 1))
      else none
    | [a, b] =>
      if (a ≠ [] ∨ b ≠ []) ∧ allDigitChars a ∧ allDigitChars b then
        let scaled : Nat := digitsToNat a * 10 ^ b.length + digitsToNat b
        some (.val (Rat.divInt (if neg then -(scaled : Int) else (scaled : Int))
          ((10 : Int) ^ b.length)))
      else none
    | _ => none

/-- Model of the parse performed by the Python builtin `float` on a string:
whitespace is stripped first. Returns none when the text is unparseable. -/
def pyFloatOfString (s : String) : Option PyFloat :=
  pyFloatOfChars (trimChars s.toList)

/-- Model of the Python builtin `float(x)` applied to a `Value`: floats pass
through, booleans coerce to 0.0 or 1.0, strings are parsed (ValueError when
unparseable), None and date-times raise TypeError. -/
def pyFloatCoerce : Value → Except String PyFloat
  | .vFloat f => .ok f
  | .vBool b => .ok (.val (if b then 1 else 0))
  | .vStr s =>
    match pyFloatOfString s with
    | some f => .ok f
    | none =>
      .error ("ValueError: could not convert string to float: " ++
        squote ++ s ++ squote)
  | .vNone => .error "TypeError: float() argument must be a string or a real number, not NoneType"
  | .vDatetime _ => .error "TypeError: float() argument must be a string or a real number, not datetime.datetime"

/-- Model of `math.isnan` on our float model. -/
def PyFloat.isNaN : PyFloat → Bool
  | .nan => true
  | .val _ => false

/-- Month number of a three-letter English month abbreviation, as `%b`
of strptime accepts it. -/
def monthOfAbbrev (l : List Char) : Option Nat :=
  if l == "Jan".toList then some 1
  else if l == "Feb".toList then some 2
  else if l == "Mar".toList then some 3
  else if l == "Apr".toList then some 4
  else if l == "May".toList then some 5
  else if l == "Jun".toList then some 6
  else if l == "Jul".toList then some 7
  else if l == "Aug".toList then some 8
  else if l == "Sep".toList then some 9
  else if l == "Oct".toList then some 10
  else if l == "Nov".toList then some 11
  else if l == "Dec".toList then some 12
  else none

/-- Parse of a nonempty all-digit field. -/
def parseDigits (l : List Char) : Option Nat :=
  if l ≠ [] ∧ allDigitChars l then some (digitsToNat l) else none

/-- Modelled from the spec: `cd_to_datetime` lives in helpers.py, which is
not under src/. The spec says it accepts the compact dataset format
"year-month-day hour:minute" (for example "1900-Dec-27 01:30", the strptime
pattern with a literal month abbreviation) and produces a structured
date-time, and that an unparseable text is an error. -/
def cd_to_datetime (s : String) : Except String DateTime :=
  let fail : Except String DateTime :=
    .error ("ValueError: time data " ++ squote ++ s ++ squote ++
      " does not match the expected format")
  match splitChar (Char.ofNat 32) s.toList with
  | [d, t] =>
    match splitChar (Char.ofNat 45) d, splitChar (Char.ofNat 58) t with
    | [y, mo, da], [h, mi] =>
      match parseDigits y, monthOfAbbrev mo, parseDigits da,
            parseDigits h, parseDigits mi with
      | some yn, some mon, some dn, some hn, some minn =>
        if 1 ≤ dn ∧ dn ≤ 31 ∧ hn ≤ 23 ∧ minn ≤ 59 then
          .ok ⟨yn, mon, dn, hn, minn⟩
        else fail
      | _, _, _, _, _ => fail
    | _, _ => fail
  | _ => fail

/-- Left-pad the decimal rendering of a number with zeros to a width. -/
def padNat (width n : Nat) : String :=
  let s := toString n
  String.mk (List.replicate (width - s.length) (Char.ofNat 48)) ++ s

/-- Modelled from the spec: `datetime_to_str` lives in helpers.py, which is
not under src/. The spec says it formats a structured date-time in a fixed
format that drops seconds ("%Y-%m-%d %H:%M"). -/
def datetime_to_str (dt : DateTime) : String :=
  padNat 4 dt.year ++ "-" ++ padNat 2 dt.month ++ "-" ++ padNat 2 dt.day ++
    " " ++ padNat 2 dt.hour ++ ":" ++ padNat 2 dt.minute

/-- Applying `datetime_to_str` to a `Value` that should hold a date-time;
on any other value the strftime call inside it raises. -/
def datetime_to_strV : Value → Except String String
  | .vDatetime dt => .ok (datetime_to_str dt)
  | v => .error ("AttributeError: " ++ pyTypeName v ++ " object has no attribute strftime")

/-- Character for a decimal digit value. -/
def digitChar (d : Nat) : Char := Char.ofNat (48 + d)

/-- Fuel-driven conversion of a natural number to its decimal digits,
most significant first (structural recursion so that concrete instances
reduce in the kernel). -/
def natCharsAux : Nat → Nat → List Char
  | 0, _ => []
  | fuel + 1, n =>
    if n < 10 then [digitChar n]
    else natCharsAux fuel (n / 10) ++ [digitChar (n % 10)]

/-- Decimal digits of a natural number, most significant first. -/
def natChars (n : Nat) : List Char := natCharsAux (n + 1) n

/-- Round the fraction num/den (den positive) to the nearest integer, ties
to even — the rounding used by Python fixed-point string formatting. The
floor and the remainder are computed with integer arithmetic
(floor = fdiv, and rem/den is compared with one half as 2*rem vs den). -/
def roundTiesToEven (num den : Int) : Int :=
  let f := num.fdiv den
  let rem := num - f * den
  if 2 * rem < den then f
  else if den < 2 * rem then f + 1
  else if f % 2 = 0 then f else f + 1

/-- Character list of Python fixed-point formatting with `prec` decimal
places (the format spec `.2f` or `.3f` of models.py), applied to our exact
model of the float: the value q is scaled by 10^prec and rounded ties to
even, written as q.num * 10^prec over q.den. The fractional part is
materialised as the last `prec` characters of the zero-padded digit string,
so it has exactly `prec` characters. nan formats as the three letters nan. -/
def fixedChars (f : PyFloat) (prec : Nat) : List Char :=
  match f with
  | .nan => [Char.ofNat 110, Char.ofNat 97, Char.ofNat 110]
  | .val q =>
    let n := roundTiesToEven (q.num * (10 : Int) ^ prec) (q.den : Int)
    let m := n.natAbs
    let ip := natChars (m / 10 ^ prec)
    let fd := natChars (m % 10 ^ prec)
    let frac := (List.replicate prec (Char.ofNat 48) ++ fd).drop
      ((prec + fd.length) - prec)
    (if n < 0 then [Char.ofNat 45] else []) ++ ip ++
      (if prec = 0 then [] else Char.ofNat 46 :: frac)

/-- Python fixed-point formatting `format(x, ".{prec}f")` as a string. -/
def formatFixed (f : PyFloat) (prec : Nat) : String :=
  String.mk (fixedChars f prec)

/-- Python `str(v)` for the values this code base prints directly.
The shortest-roundtrip repr of finite floats is not modelled exactly (no
verified statement formats a raw float: the source always formats floats
through an explicit fixed-point format spec). -/
def pyStr : Value → String
  | .vNone => "None"
  | .vStr s => s
  | .vBool b => if b then "True" else "False"
  | .vFloat .nan => "nan"
  | .vFloat (.val q) => toString q.num ++ "/" ++ toString q.den
  | .vDatetime dt => datetime_to_str dt ++ ":00"

/-- Python `repr(v)` for the values this code base prints with the !r
conversion. -/
def pyRepr : Value → String
  | .vStr s => squote ++ s ++ squote
  | v => pyStr v

/-!
The entity model of src/models.py.
-/

/-- The `NearEarthObject` attribute record as `__init__` leaves it
(models.py lines 37-47). Field values keep the loose `Value` type the
constructor stores without validation; `approaches` starts empty and is
populated only by the database, which is outside src/. -/
structure NearEarthObject where
  designation : Value
  name : Value
  diameter : PyFloat
  hazardous : Value
  approaches : List Nat
deriving DecidableEq

/-- Model of `NearEarthObject.__init__(**info)` (models.py lines 37-47):
`designation`, `name` and `hazardous` are taken by `info.get` with no
validation, `diameter` is `float(info.get("diameter", float("nan")))`
(the only expression that can raise), `approaches` starts empty. -/
def NearEarthObject.init (info : Info) : Except String NearEarthObject := do
  let diameter ← pyFloatCoerce (dictGetD info "diameter" (.vFloat .nan))
  .ok { designation := dictGet0 info "designation"
        name := dictGet0 info "name"
        diameter := diameter
        hazardous := dictGet0 info "hazardous"
        approaches := [] }

/-- Model of the `fullname` property (models.py lines 49-54). -/
def NearEarthObject.fullname (n : NearEarthObject) : String :=
  if truthy n.name then
    pyStr n.designation ++ " (" ++ pyStr n.name ++ ")"
  else pyStr n.designation

/-- Model of `NearEarthObject.__str__` (models.py lines 57-63):
diameter printed with the `.3f` format spec when it is not nan. -/
def NearEarthObject.str (n : NearEarthObject) : String :=
  let hazardous_status := if truthy n.hazardous then "is" else "is not"
  if !n.diameter.isNaN then
    "NEO " ++ n.fullname ++ " has a diameter of " ++ formatFixed n.diameter 3 ++
      " km and " ++ hazardous_status ++ " potentially hazardous."
  else
    "NEO " ++ n.fullname ++ ", " ++ hazardous_status ++ " potentially hazardous."

/-- Model of `NearEarthObject.__repr__` (models.py lines 67-70). -/
def NearEarthObject.reprStr (n : NearEarthObject) : String :=
  "NearEarthObject(designation=" ++ pyRepr n.designation ++ ", name=" ++
    pyRepr n.name ++ ", diameter=" ++ formatFixed n.diameter 3 ++
    ", hazardous=" ++ pyStr n.hazardous ++ ")"

/-- Model of `NearEarthObject.serialize` (models.py lines 73-80): the
literal four-key mapping, in source order. -/
def NearEarthObject.serialize (n : NearEarthObject) : Info :=
  [("Designation", n.designation),
   ("Name", n.name),
   ("Diameter_km", .vFloat n.diameter),
   ("Potentially_hazardous", n.hazardous)]

/-- The `CloseApproach` attribute record as `__init__` leaves it
(models.py lines 98-130). `time` keeps the loose `Value` the constructor
stores: the original falsy value when no truthy time was supplied, the
parsed date-time otherwise. `neo` is the linked NEO; `info.get("neo", None)`
yields None for every construction in this repository (no caller passes a
NEO instance through the keyword mapping), so `init` stores none and linking
replaces it afterwards. -/
structure CloseApproach where
  _designation : Value
  time : Value
  distance : PyFloat
  velocity : PyFloat
  neo : Option NearEarthObject
deriving DecidableEq

/-- Model of `CloseApproach.__init__(**info)` (models.py lines 98-130):
a truthy supplied time must be a string that `cd_to_datetime` parses, else
ValueError (strptime on a non-string raises inside the try block and is
re-raised as ValueError; the isinstance re-check on the parse result is
unreachable because `cd_to_datetime` only returns date-times); a falsy or
missing time is stored unparsed. `distance` and `velocity` default to nan
and must already be floats — they are checked with isinstance, not coerced. -/
def CloseApproach.init (info : Info) : Except String CloseApproach := do
  let time ←
    if truthy (dictGet0 info "time") then
      match dictGet0 info "time" with
      | .vStr s =>
        match cd_to_datetime s with
        | .ok dt => Except.ok (Value.vDatetime dt)
        | .error e =>
          Except.error ("ValueError: Failed to convert time to datetime: " ++ e)
      | v =>
        Except.error ("ValueError: Failed to convert time to datetime: " ++
          "TypeError: strptime() argument 1 must be str, not " ++ pyTypeName v)
    else Except.ok (dictGet0 info "time")
  let distance ←
    match dictGetD info "distance" (.vFloat .nan) with
    | .vFloat f => Except.ok f
    | v =>
      Except.error ("ValueError: Invalid distance value: Expected float, got " ++
        pyTypeName v)
  let velocity ←
    match dictGetD info "velocity" (.vFloat .nan) with
    | .vFloat f => Except.ok f
    | w =>
      Except.error ("ValueError: Invalid velocity value: Expected float, got " ++
        pyTypeName w)
  .ok { _designation := dictGet0 info "designation"
        time := time
        distance := distance
        velocity := velocity
        neo := none }

/-- Model of the read-only `designation` property (models.py lines 135-143). -/
def CloseApproach.designation (c : CloseApproach) : Value := c._designation

/-- Model of the `time_str` property (models.py lines 145-158). Its body is
`datetime_to_string(self.time) if self.time else "Unknown time"`; models.py
imports only `datetime_to_str` (line 20) and defines no `datetime_to_string`,
so the truthy branch evaluates an unbound name and raises NameError. -/
def CloseApproach.time_str (c : CloseApproach) : Except String String :=
  if truthy c.time then
    .error ("NameError: name " ++ squote ++ "datetime_to_string" ++ squote ++
      " is not defined")
  else .ok "Unknown time"

/-- Model of `CloseApproach.__str__` (models.py lines 161-165): evaluates
`time_str` (which may raise), dereferences `self.neo.fullname` (AttributeError
when `neo` is None), and prints distance and velocity with the `.2f` spec. -/
def CloseApproach.str (c : CloseApproach) : Except String String := do
  let ts ← c.time_str
  let fn ←
    match c.neo with
    | some n => Except.ok n.fullname
    | none =>
      Except.error ("AttributeError: " ++ squote ++ "NoneType" ++ squote ++
        " object has no attribute " ++ squote ++ "fullname" ++ squote)
  .ok ("At " ++ ts ++ ", " ++ squote ++ fn ++ squote ++
    " approaches Earth at a distance of " ++ formatFixed c.distance 2 ++
    " au and a velocity of " ++ formatFixed c.velocity 2 ++ " km/s.")

/-- Model of `CloseApproach.__repr__` (models.py lines 167-170): also
evaluates `time_str` first, then prints distance and velocity with `.2f`. -/
def CloseApproach.reprStr (c : CloseApproach) : Except String String := do
  let ts ← c.time_str
  let neoRepr :=
    match c.neo with
    | some n => n.reprStr
    | none => "None"
  .ok ("CloseApproach(time=" ++ squote ++ ts ++ squote ++ ", distance=" ++
    formatFixed c.distance 2 ++ ", velocity=" ++ formatFixed c.velocity 2 ++
    ", neo=" ++ neoRepr ++ ")")

/-- Model of `CloseApproach.serialize` (models.py lines 172-178): the
literal three-key mapping in source order; `datetime_to_str(self.time)`
raises when `time` is not a date-time. -/
def CloseApproach.serialize (c : CloseApproach) : Except String Info := do
  let s ← datetime_to_strV c.time
  .ok [("Datetime_utc", .vStr s),
       ("Distance_au", .vFloat c.distance),
       ("Velocity_km_s", .vFloat c.velocity)]

/-!
The loaders of src/extract.py. A csv.DictReader row of the NEO file and a
record of the close-approach JSON file always carry all their named fields
as strings, so rows are modelled as string records.
-/

/-- One row of the NEO CSV file as csv.DictReader yields it (the four
fields load_neos reads; all values are text). -/
structure NeoRow where
  pdes : String
  name : String
  diameter : String
  hazardous : String
deriving DecidableEq

/-- One record of the close-approach JSON file (the four fields
load_approaches reads; all values are text). -/
structure CadRow where
  designation : String
  time : String
  distance : String
  velocity : String
deriving DecidableEq

/-- Python call semantics of `NearEarthObject(a, b, c, d)`: the constructor
signature is `__init__(self, **info)`, which accepts no positional argument
beyond self, so any positional call raises TypeError before the body runs. -/
def callNearEarthObjectPositional (args : List Value) :
    Except String NearEarthObject :=
  match args with
  | [] => NearEarthObject.init []
  | _ =>
    .error ("TypeError: NearEarthObject.__init__() takes 1 positional argument but " ++
      toString (args.length + 1) ++ " were given")

/-- Python call semantics of `CloseApproach(a, b, c, d)`: the constructor
signature is `__init__(self, **info)`, so any positional call raises
TypeError before the body runs. -/
def callCloseApproachPositional (args : List Value) :
    Except String CloseApproach :=
  match args with
  | [] => CloseApproach.init []
  | _ =>
    .error ("TypeError: CloseApproach.__init__() takes 1 positional argument but " ++
      toString (args.length + 1) ++ " were given")

/-- Per-row body of the load_neos loop (extract.py lines 33-42): read the
four fields, coerce diameter with `float` when the text is nonempty (else
nan), compare hazardous with the letter Y, and call the constructor with
four positional arguments. -/
def load_neosRow (r : NeoRow) : Except String NearEarthObject := do
  let diameter ←
    if r.diameter ≠ "" then pyFloatCoerce (.vStr r.diameter)
    else Except.ok PyFloat.nan
  callNearEarthObjectPositional
    [.vStr r.pdes, .vStr r.name, .vFloat diameter, .vBool (r.hazardous == "Y")]

/-- Model of `load_neos` (extract.py lines 22-43) over the parsed rows of
the CSV file: the loop raises out of the function at the first failing row,
returning no list. -/
def load_neos : List NeoRow → Except String (List NearEarthObject)
  | [] => .ok []
  | r :: rs => do
    let neo ← load_neosRow r
    let rest ← load_neos rs
    .ok (neo :: rest)

/-- Per-row body of the load_approaches loop (extract.py lines 59-68):
read the four fields, coerce distance and velocity with `float`, and call
the constructor with four positional arguments. -/
def load_approachesRow (r : CadRow) : Except String CloseApproach := do
  let distance ← pyFloatCoerce (.vStr r.distance)
  let velocity ← pyFloatCoerce (.vStr r.velocity)
  callCloseApproachPositional
    [.vStr r.designation, .vStr r.time, .vFloat distance, .vFloat velocity]

/-- Model of `load_approaches` (extract.py lines 47-70) over the parsed
records of the JSON file. -/
def load_approaches : List CadRow → Except String (List CloseApproach)
  | [] => .ok []
  | r :: rs => do
    let approach ← load_approachesRow r
    let rest ← load_approaches rs
    .ok (approach :: rest)

/-!
The writers of src/write.py. Each writer is modelled up to the per-result
dictionary it would hand to the csv or json serialiser; the file system
itself is outside the embedding.
-/

/-- Model of `d[k]` with Python semantics: KeyError when absent. -/
def dictGetE (d : Info) (k : String) : Except String Value :=
  match dictFind d k with
  | some v => .ok v
  | none => .error ("KeyError: " ++ squote ++ k ++ squote)

/-- Model of `result.neo.serialize()`: AttributeError when neo is None. -/
def neoSerializeOf (c : CloseApproach) : Except String Info :=
  match c.neo with
  | some n => .ok n.serialize
  | none =>
    .error ("AttributeError: " ++ squote ++ "NoneType" ++ squote ++
      " object has no attribute " ++ squote ++ "serialize" ++ squote)

/-- Model of the inner `format_content` of write_to_csv (write.py lines
32-36): merge the two serialized mappings, default the lowercase name key to
the empty string, then read the lowercase potentially_hazardous key with a
plain subscript. -/
def format_content_csv (c : CloseApproach) : Except String Info := do
  let cs ← c.serialize
  let ns ← neoSerializeOf c
  let content := dictMerge cs ns
  let content := dictSet content "name" (dictGetD content "name" (.vStr ""))
  let pv ← dictGetE content "potentially_hazardous"
  .ok (dictSet content "potentially_hazardous" (.vStr (pyStr pv)))

/-- Model of `write_to_csv` (write.py lines 17-42) up to the sequence of
row dictionaries handed to csv.DictWriter: the first raising row aborts the
whole write. -/
def write_to_csv : List CloseApproach → Except String (List Info)
  | [] => .ok []
  | r :: rs => do
    let row ← format_content_csv r
    let rest ← write_to_csv rs
    .ok (row :: rest)

/-- Python `bool(v)` is truthiness. -/
def pyBool (v : Value) : Bool := truthy v

/-- Model of the inner `format_content` of write_to_json (write.py lines
57-72): merge the two serialized mappings, default the lowercase name key,
then read the lowercase potentially_hazardous key with a plain subscript
(the `is not None` test already subscripts the missing key). -/
def format_content_json (c : CloseApproach) : Except String Info := do
  let cs ← c.serialize
  let ns ← neoSerializeOf c
  let content := dictMerge cs ns
  let content := dictSet content "name" (dictGetD content "name" (.vStr ""))
  let pv0 ← dictGetE content "potentially_hazardous"
  let pv := if pv0 ≠ .vNone then Value.vBool (pyBool pv0) else Value.vBool false
  let content := dictSet content "potentially_hazardous" pv
  let dtv ← dictGetE content "datetime_utc"
  let dis ← dictGetE content "distance_au"
  let vel ← dictGetE content "velocity_km_s"
  let des ← dictGetE content "designation"
  let nam ← dictGetE content "name"
  let dia ← dictGetE content "diameter_km"
  let haz ← dictGetE content "potentially_hazardous"
  .ok [("datetime_utc", dtv), ("distance_au", dis), ("velocity_km_s", vel),
       ("designation", des), ("name", nam), ("diameter_km", dia),
       ("potentially_hazardous", haz)]

/-- Model of `write_to_json` (write.py lines 46-77) up to the list of
dictionaries handed to json.dump. -/
def write_to_json : List CloseApproach → Except String (List Info)
  | [] => .ok []
  | r :: rs => do
    let row ← format_content_json r
    let rest ← write_to_json rs
    .ok (row :: rest)

/-!
The database. The NEODatabase class of this repository is not under src/,
so it is modelled from the spec.
-/

/-- Modelled from the spec: the NEODatabase owns the authoritative ordered
collections of NEOs and CloseApproaches (spec section 4.2); the class itself
is not under src/. -/
structure NEODatabase where
  neos : List NearEarthObject
  approaches : List CloseApproach

/-- Modelled from the spec: `query(filters)` applies a conjunction of
independent predicates over the full approach collection in the original
insertion order, with no constraint when a dimension is absent
(spec section 4.2); the method is not under src/. -/
def NEODatabase.query (db : NEODatabase)
    (filters : List (CloseApproach → Bool)) : List CloseApproach :=
  db.approaches.filter (fun a => filters.all (fun f => f a))

/-!
Worked example objects (the spec section 8 example: NEO 433 Eros and its
1900-Dec-27 approach), used as concrete inputs for witnesses and
counterexamples.
-/

/-- The NEO of the worked example: designation 433, name Eros, diameter
16.84 km, not hazardous. -/
def erosNeo : NearEarthObject :=
  ⟨.vStr "433", .vStr "Eros", .val (Rat.divInt 1684 100), .vBool false, []⟩

/-- The worked example approach linked to Eros, its compact time parsed. -/
def erosApproach : CloseApproach :=
  ⟨.vStr "433", .vDatetime ⟨1900, 12, 27, 1, 30⟩, .val (Rat.divInt 15 100),
    .val (Rat.divInt 665 100), some erosNeo⟩

/-- The same linked approach with its time at the missing-field default. -/
def erosApproachNoTime : CloseApproach :=
  ⟨.vStr "433", .vNone, .val (Rat.divInt 15 100),
    .val (Rat.divInt 665 100), some erosNeo⟩

/-!
Helper lemmas about the decimal formatting machinery: the digits produced
by `natChars` are decimal digits, and the fractional part produced by
`fixedChars` with a positive precision has exactly that many characters
after the final decimal point.
-/

/-- The characters after the last decimal point of a character list. -/
def decimalTail (l : List Char) : List Char :=
  l.reverse.takeWhile (fun c => !(c == Char.ofNat 46))

theorem digitChar_isDigit {d : Nat} (h : d < 10) :
    (digitChar d).isDigit = true := by
  interval_cases d <;> decide

theorem natCharsAux_digits (fuel : Nat) :
    ∀ n c, c ∈ natCharsAux fuel n → c.isDigit = true := by
  induction fuel with
  | zero => intro n c hc; simp [natCharsAux] at hc
  | succ fuel ih =>
    intro n c hc
    by_cases h : n < 10
    · simp [natCharsAux, h] at hc
      subst hc
      exact digitChar_isDigit h
    · simp [natCharsAux, h] at hc
      rcases hc with hc | hc
      · exact ih _ _ hc
      · subst hc
        exact digitChar_isDigit (Nat.mod_lt _ (by omega))

theorem natChars_digits (n : Nat) :
    ∀ c ∈ natChars n, c.isDigit = true :=
  fun c hc => natCharsAux_digits (n + 1) n c hc

theorem takeWhile_append_cons {p : Char → Bool} (l r : List Char) (x : Char)
    (hl : ∀ c ∈ l, p c = true) (hx : p x = false) :
    (l ++ x :: r).takeWhile p = l := by
  induction l with
  | nil => simp [List.takeWhile, hx]
  | cons c cs ih =>
    have hc : p c = true := hl c (by simp)
    simp [List.takeWhile, hc]
    exact ih (fun d hd => hl d (by simp [hd]))

theorem fracPart_length (prec L : Nat) (z : Char) (fd : List Char)
    (hfd : fd.length = L) :
    ((List.replicate prec z ++ fd).drop ((prec + L) - prec)).length = prec := by
  simp [List.length_drop, hfd]

theorem fracPart_mem (prec L : Nat) (fd : List Char)
    (c : Char) (hc : c ∈ (List.replicate prec (Char.ofNat 48) ++ fd).drop L) :
    c = Char.ofNat 48 ∨ c ∈ fd := by
  have := List.drop_subset L (List.replicate prec (Char.ofNat 48) ++ fd) hc
  rcases List.mem_append.mp this with h | h
  · exact Or.inl (List.eq_of_mem_replicate h)
  · exact Or.inr h

/-- The format `.{p+1}f` of our float model always yields exactly p+1
characters after the final decimal point on finite values. -/
theorem decimalTail_fixedChars (q : Rat) (p : Nat) :
    (decimalTail (fixedChars (.val q) (p + 1))).length = p + 1 := by
  have hdigitsNoDot : ∀ c : Char, c.isDigit = true → (!(c == Char.ofNat 46)) = true := by
    intro c hc
    simp only [Bool.not_eq_true', beq_eq_false_iff_ne]
    intro he
    subst he
    simp [Char.isDigit] at hc
  unfold fixedChars
  simp only [Nat.succ_ne_zero, if_false]
  set n := roundTiesToEven (q.num * (10 : Int) ^ (p + 1)) (q.den : Int) with hn
  set m := n.natAbs with hm
  set ip := natChars (m / 10 ^ (p + 1)) with hip
  set fd := natChars (m % 10 ^ (p + 1)) with hfd
  set frac := (List.replicate (p + 1) (Char.ofNat 48) ++ fd).drop
    ((p + 1 + fd.length) - (p + 1)) with hfrac
  have hfracMem : ∀ c ∈ frac, (!(c == Char.ofNat 46)) = true := by
    intro c hc
    rcases fracPart_mem (p + 1) _ fd c hc with h | h
    · subst h; decide
    · exact hdigitsNoDot c (natChars_digits _ c h)
  have hfracLen : frac.length = p + 1 :=
    fracPart_length (p + 1) fd.length (Char.ofNat 48) fd rfl
  have hrev :
      ((if n < 0 then [Char.ofNat 45] else []) ++ ip ++
        (Char.ofNat 46 :: frac)).reverse =
      frac.reverse ++ Char.ofNat 46 ::
        (ip.reverse ++ (if n < 0 then [Char.ofNat 45] else []).reverse) := by
    simp [List.reverse_append]
  unfold decimalTail
  rw [hrev, takeWhile_append_cons]
  · simp [hfracLen]
  · intro c hc
    exact hfracMem c (List.mem_reverse.mp hc)
  · decide

/-!
Helper lemmas characterizing the two constructors under hypotheses on the
supplied mapping, shared by several claims below.
-/

theorem bindE_ok {α β : Type} (a : α) (f : α → Except String β) :
    (Except.ok a : Except String α) >>= f = f a := rfl

theorem bindE_err {α β : Type} (e : String) (f : α → Except String β) :
    (Except.error e : Except String α) >>= f = Except.error e := rfl

theorem dictGetD_of_missing (d : Info) (k : String) (v : Value)
    (h : dictFind d k = none) : dictGetD d k v = v := by
  simp [dictGetD, h]

theorem neoInit_ok (info : Info) (f : PyFloat)
    (h : pyFloatCoerce (dictGetD info "diameter" (.vFloat .nan)) = .ok f) :
    NearEarthObject.init info =
      .ok ⟨dictGet0 info "designation", dictGet0 info "name", f,
        dictGet0 info "hazardous", []⟩ := by
  simp [NearEarthObject.init, h, bindE_ok, bindE_err]

theorem neoInit_diameter_missing (info : Info)
    (h : dictFind info "diameter" = none) :
    NearEarthObject.init info =
      .ok ⟨dictGet0 info "designation", dictGet0 info "name", .nan,
        dictGet0 info "hazardous", []⟩ :=
  neoInit_ok info .nan (by rw [dictGetD_of_missing _ _ _ h]; rfl)

theorem neoInit_error (info : Info) (e : String)
    (h : pyFloatCoerce (dictGetD info "diameter" (.vFloat .nan)) = .error e) :
    NearEarthObject.init info = .error e := by
  simp [NearEarthObject.init, h, bindE_ok, bindE_err]

theorem caInit_falsy_time (info : Info) (fd fv : PyFloat)
    (ht : truthy (dictGet0 info "time") = false)
    (hd : dictGetD info "distance" (.vFloat .nan) = .vFloat fd)
    (hv : dictGetD info "velocity" (.vFloat .nan) = .vFloat fv) :
    CloseApproach.init info =
      .ok ⟨dictGet0 info "designation", dictGet0 info "time", fd, fv, none⟩ := by
  simp [CloseApproach.init, ht, hd, hv, bindE_ok, bindE_err]

theorem caInit_missing_fields (info : Info)
    (ht : dictFind info "time" = none)
    (hd : dictFind info "distance" = none)
    (hv : dictFind info "velocity" = none) :
    CloseApproach.init info =
      .ok ⟨dictGet0 info "designation", .vNone, .nan, .nan, none⟩ := by
  have ht0 : dictGet0 info "time" = .vNone := dictGetD_of_missing _ _ _ ht
  have h := caInit_falsy_time info .nan .nan
    (by rw [ht0]; rfl)
    (dictGetD_of_missing _ _ _ hd) (dictGetD_of_missing _ _ _ hv)
  rw [h, ht0]

theorem caInit_time_error (info : Info) (s e : String)
    (hs : dictGet0 info "time" = .vStr s) (hne : s ≠ "")
    (hp : cd_to_datetime s = .error e) :
    CloseApproach.init info =
      .error ("ValueError: Failed to convert time to datetime: " ++ e) := by
  have ht : truthy (Value.vStr s) = true := by simp [truthy, hne]
  simp [CloseApproach.init, hs, ht, hp, bindE_ok, bindE_err]

theorem caInit_parsed_time (info : Info) (s : String) (dt : DateTime)
    (fd fv : PyFloat)
    (hs : dictGet0 info "time" = .vStr s) (hne : s ≠ "")
    (hp : cd_to_datetime s = .ok dt)
    (hd : dictGetD info "distance" (.vFloat .nan) = .vFloat fd)
    (hv : dictGetD info "velocity" (.vFloat .nan) = .vFloat fv) :
    CloseApproach.init info =
      .ok ⟨dictGet0 info "designation", .vDatetime dt, fd, fv, none⟩ := by
  have ht : truthy (Value.vStr s) = true := by simp [truthy, hne]
  simp [CloseApproach.init, hs, ht, hp, hd, hv, bindE_ok, bindE_err]

theorem caInit_distance_not_float (info : Info) (v : Value)
    (ht : truthy (dictGet0 info "time") = false)
    (hd : dictGetD info "distance" (.vFloat .nan) = v)
    (hnf : ∀ f, v ≠ .vFloat f) :
    CloseApproach.init info =
      .error ("ValueError: Invalid distance value: Expected float, got " ++
        pyTypeName v) := by
  cases v with
  | vFloat f => exact absurd rfl (hnf f)
  | vNone => simp [CloseApproach.init, ht, hd, pyTypeName, bindE_ok, bindE_err]
  | vStr s => simp [CloseApproach.init, ht, hd, pyTypeName, bindE_ok, bindE_err]
  | vBool b => simp [CloseApproach.init, ht, hd, pyTypeName, bindE_ok, bindE_err]
  | vDatetime dt => simp [CloseApproach.init, ht, hd, pyTypeName, bindE_ok, bindE_err]

/-!
Claim C1.
-/

/-- Claim C1 counterexample: the empty construction mapping is missing every
required field, yet both constructors succeed and produce an object with
defaulted fields instead of raising a validation error. -/
theorem C1_counterexample :
    NearEarthObject.init [] = .ok ⟨.vNone, .vNone, .nan, .vNone, []⟩ ∧
    CloseApproach.init [] = .ok ⟨.vNone, .vNone, .nan, .nan, none⟩ := by
  decide

/-- Claim C1, amended: construction does not validate required fields. A NEO
whose diameter is absent is produced with every absent field defaulted (the
designation to None), and a CloseApproach whose time, distance and velocity
are all absent is produced with None time and nan distance and velocity; no
validation error is raised for any missing field. -/
theorem C1_amended :
    (∀ info : Info, dictFind info "diameter" = none →
      NearEarthObject.init info =
        .ok ⟨dictGet0 info "designation", dictGet0 info "name", .nan,
          dictGet0 info "hazardous", []⟩) ∧
    (∀ info : Info, dictFind info "time" = none →
      dictFind info "distance" = none → dictFind info "velocity" = none →
      CloseApproach.init info =
        .ok ⟨dictGet0 info "designation", .vNone, .nan, .nan, none⟩) :=
  ⟨fun info h => neoInit_diameter_missing info h,
   fun info ht hd hv => caInit_missing_fields info ht hd hv⟩

/-- Claim C1 witness: the amended claim evaluated on a mapping holding only
a designation. -/
theorem C1_witness :
    NearEarthObject.init [("designation", Value.vStr "433")] =
      .ok ⟨.vStr "433", .vNone, .nan, .vNone, []⟩ ∧
    CloseApproach.init [("designation", Value.vStr "433")] =
      .ok ⟨.vStr "433", .vNone, .nan, .nan, none⟩ :=
  ⟨(C1_amended.1 [("designation", Value.vStr "433")] (by decide)).trans
      (by decide),
   (C1_amended.2 [("designation", Value.vStr "433")] (by decide) (by decide)
      (by decide)).trans (by decide)⟩

/-!
Claim C2.
-/

/-- Claim C2 counterexample: an unparseable supplied diameter raises
ValueError from the float coercion, so diameter handling does raise. -/
theorem C2_counterexample :
    NearEarthObject.init
      [("designation", .vStr "433"), ("diameter", .vStr "xyz")] =
    .error ("ValueError: could not convert string to float: " ++
      squote ++ "xyz" ++ squote) := by
  decide

/-- Claim C2, amended: a missing diameter becomes the nan sentinel and a
missing name becomes None, never raising; a supplied diameter is coerced by
float(), so parseable text coerces to the parsed value but unparseable text
raises ValueError; and the CloseApproach distance is not coerced at all —
supplied text, even numeric, raises ValueError. -/
theorem C2_amended :
    (∀ info : Info, dictFind info "diameter" = none →
      NearEarthObject.init info =
        .ok ⟨dictGet0 info "designation", dictGet0 info "name", .nan,
          dictGet0 info "hazardous", []⟩) ∧
    (∀ (info : Info) (s : String) (f : PyFloat),
      dictFind info "diameter" = some (.vStr s) →
      pyFloatOfString s = some f →
      NearEarthObject.init info =
        .ok ⟨dictGet0 info "designation", dictGet0 info "name", f,
          dictGet0 info "hazardous", []⟩) ∧
    (∀ (info : Info) (s : String),
      dictFind info "diameter" = some (.vStr s) →
      pyFloatOfString s = none →
      NearEarthObject.init info =
        .error ("ValueError: could not convert string to float: " ++
          squote ++ s ++ squote)) ∧
    (∀ (info : Info) (s : String),
      truthy (dictGet0 info "time") = false →
      dictGetD info "distance" (.vFloat .nan) = .vStr s →
      CloseApproach.init info =
        .error ("ValueError: Invalid distance value: Expected float, got " ++
          pyTypeName (.vStr s))) := by
  refine ⟨fun info h => neoInit_diameter_missing info h, ?_, ?_, ?_⟩
  · intro info s f h1 h2
    exact neoInit_ok info f (by simp [dictGetD, h1, pyFloatCoerce, h2])
  · intro info s h1 h2
    exact neoInit_error info _ (by simp [dictGetD, h1, pyFloatCoerce, h2])
  · intro info s ht hd
    exact caInit_distance_not_float info (.vStr s) ht hd
      (fun f h => Value.noConfusion h)

/-- Claim C2 witness: the amended claim evaluated on concrete mappings with
a missing diameter, the parseable diameter text 16.84, the unparseable
diameter text big, and the numeric distance text 0.15. -/
theorem C2_witness :
    NearEarthObject.init [("hazardous", Value.vBool true)] =
      .ok ⟨.vNone, .vNone, .nan, .vBool true, []⟩ ∧
    NearEarthObject.init [("diameter", Value.vStr "16.84")] =
      .ok ⟨.vNone, .vNone, .val (Rat.divInt 1684 100), .vNone, []⟩ ∧
    NearEarthObject.init [("diameter", Value.vStr "big")] =
      .error ("ValueError: could not convert string to float: " ++
        squote ++ "big" ++ squote) ∧
    CloseApproach.init [("distance", Value.vStr "0.15")] =
      .error ("ValueError: Invalid distance value: Expected float, got " ++
        pyTypeName (.vStr "0.15")) :=
  ⟨(C2_amended.1 [("hazardous", Value.vBool true)] (by decide)).trans
      (by decide),
   (C2_amended.2.1 [("diameter", Value.vStr "16.84")] "16.84"
      (.val (Rat.divInt 1684 100)) (by decide) (by decide)).trans (by decide),
   C2_amended.2.2.1 [("diameter", Value.vStr "big")] "big" (by decide)
      (by decide),
   C2_amended.2.2.2 [("distance", Value.vStr "0.15")] "0.15" (by decide)
      (by decide)⟩

/-!
Claim C3.
-/

/-- Claim C3 counterexample: a CloseApproach can exist without a valid
parsed time — construction with no supplied time succeeds with the None
default, and construction with the supplied empty time text (which the
compact format cannot parse) also succeeds, storing the unparsed empty
string. -/
theorem C3_counterexample :
    CloseApproach.init [("designation", .vStr "433")] =
      .ok ⟨.vStr "433", .vNone, .nan, .nan, none⟩ ∧
    CloseApproach.init [("designation", .vStr "433"), ("time", .vStr "")] =
      .ok ⟨.vStr "433", .vStr "", .nan, .nan, none⟩ := by
  decide

/-- Claim C3, amended: a supplied truthy (nonempty) time text that the
compact format cannot parse raises ValueError, and a parseable one is stored
as the structured date-time; but a missing or falsy supplied time leaves the
object constructed with its unparsed falsy time, so a CloseApproach can
exist without a valid parsed time. -/
theorem C3_amended :
    (∀ (info : Info) (s e : String),
      dictGet0 info "time" = .vStr s → s ≠ "" →
      cd_to_datetime s = .error e →
      CloseApproach.init info =
        .error ("ValueError: Failed to convert time to datetime: " ++ e)) ∧
    (∀ (info : Info) (s : String) (dt : DateTime) (fd fv : PyFloat),
      dictGet0 info "time" = .vStr s → s ≠ "" →
      cd_to_datetime s = .ok dt →
      dictGetD info "distance" (.vFloat .nan) = .vFloat fd →
      dictGetD info "velocity" (.vFloat .nan) = .vFloat fv →
      CloseApproach.init info =
        .ok ⟨dictGet0 info "designation", .vDatetime dt, fd, fv, none⟩) ∧
    (∀ (info : Info) (fd fv : PyFloat),
      truthy (dictGet0 info "time") = false →
      dictGetD info "distance" (.vFloat .nan) = .vFloat fd →
      dictGetD info "velocity" (.vFloat .nan) = .vFloat fv →
      CloseApproach.init info =
        .ok ⟨dictGet0 info "designation", dictGet0 info "time", fd, fv,
          none⟩) :=
  ⟨fun info s e hs hne hp => caInit_time_error info s e hs hne hp,
   fun info s dt fd fv hs hne hp hd hv =>
     caInit_parsed_time info s dt fd fv hs hne hp hd hv,
   fun info fd fv ht hd hv => caInit_falsy_time info fd fv ht hd hv⟩

/-- Claim C3 witness: the amended claim evaluated on the unparseable time
text garbage, the worked-example time text, and the falsy empty time text. -/
theorem C3_witness :
    CloseApproach.init [("time", Value.vStr "garbage")] =
      .error ("ValueError: Failed to convert time to datetime: " ++
        ("ValueError: time data " ++ squote ++ "garbage" ++ squote ++
          " does not match the expected format")) ∧
    CloseApproach.init [("time", Value.vStr "1900-Dec-27 01:30")] =
      .ok ⟨.vNone, .vDatetime ⟨1900, 12, 27, 1, 30⟩, .nan, .nan, none⟩ ∧
    CloseApproach.init [("time", Value.vStr "")] =
      .ok ⟨.vNone, .vStr "", .nan, .nan, none⟩ :=
  ⟨C3_amended.1 [("time", Value.vStr "garbage")] "garbage" _ (by decide)
      (by decide) (by decide),
   (C3_amended.2.1 [("time", Value.vStr "1900-Dec-27 01:30")]
      "1900-Dec-27 01:30" ⟨1900, 12, 27, 1, 30⟩ .nan .nan (by decide)
      (by decide) (by decide) (by decide) (by decide)).trans (by decide),
   (C3_amended.2.2 [("time", Value.vStr "")] .nan .nan (by decide) (by decide)
      (by decide)).trans (by decide)⟩

/-!
Claim C4.
-/

/-- Claim C4: the serialize-then-write round trip cannot happen at all —
`serialize()` emits capitalized keys (Potentially_hazardous and the rest)
while both writers subscript lowercase keys, so each writer raises KeyError
on the first linked approach instead of writing the record. Evaluated at the
worked example approach. -/
theorem C4_writers_keyerror :
    write_to_csv [erosApproach] =
      .error ("KeyError: " ++ squote ++ "potentially_hazardous" ++ squote) ∧
    write_to_json [erosApproach] =
      .error ("KeyError: " ++ squote ++ "potentially_hazardous" ++ squote) := by
  decide

/-!
Claim C5.
-/

/-- Claim C5 counterexample: the string form of the worked example approach
renders distance and velocity with two decimal places (0.15 and 6.65), not
the claimed three — it differs from the three-decimal rendering. -/
theorem C5_counterexample :
    CloseApproach.str erosApproachNoTime =
      .ok ("At Unknown time, " ++ squote ++ "433 (Eros)" ++ squote ++
        " approaches Earth at a distance of 0.15 au and a velocity of 6.65 km/s.") ∧
    ¬ (CloseApproach.str erosApproachNoTime =
      .ok ("At Unknown time, " ++ squote ++ "433 (Eros)" ++ squote ++
        " approaches Earth at a distance of 0.150 au and a velocity of 6.650 km/s.")) := by
  decide

/-- Claim C5, amended: the NEO string form formats the known diameter with
exactly 3 decimal places, while the CloseApproach string form formats
distance and velocity with exactly 2 decimal places (rendering the time
through time_str, which yields Unknown time when the time is absent); the
fixed-point format with positive precision always produces exactly that many
characters after the final decimal point. -/
theorem C5_amended :
    (∀ (n : NearEarthObject) (q : Rat), n.diameter = .val q →
      NearEarthObject.str n =
        "NEO " ++ n.fullname ++ " has a diameter of " ++
          formatFixed (.val q) 3 ++ " km and " ++
          (if truthy n.hazardous then "is" else "is not") ++
          " potentially hazardous.") ∧
    (∀ (c : CloseApproach) (nn : NearEarthObject),
      truthy c.time = false → c.neo = some nn →
      CloseApproach.str c =
        .ok ("At Unknown time, " ++ squote ++ nn.fullname ++ squote ++
          " approaches Earth at a distance of " ++ formatFixed c.distance 2 ++
          " au and a velocity of " ++ formatFixed c.velocity 2 ++ " km/s.")) ∧
    (∀ (q : Rat) (p : Nat),
      (decimalTail (fixedChars (.val q) (p + 1))).length = p + 1) := by
  refine ⟨?_, ?_, fun q p => decimalTail_fixedChars q p⟩
  · intro n q h
    simp [NearEarthObject.str, h, PyFloat.isNaN]
  · intro c nn ht hn
    simp [CloseApproach.str, CloseApproach.time_str, ht, hn, bindE_ok,
      bindE_err]

/-- Claim C5 witness: the amended claim evaluated at the worked example NEO
and approach, and at the format of the example distance with precision 2. -/
theorem C5_witness :
    NearEarthObject.str erosNeo =
      "NEO 433 (Eros) has a diameter of 16.840 km and is not potentially hazardous." ∧
    CloseApproach.str erosApproachNoTime =
      .ok ("At Unknown time, " ++ squote ++ "433 (Eros)" ++ squote ++
        " approaches Earth at a distance of 0.15 au and a velocity of 6.65 km/s.") ∧
    (decimalTail (fixedChars (.val (Rat.divInt 15 100)) 2)).length = 2 :=
  ⟨(C5_amended.1 erosNeo (Rat.divInt 1684 100) rfl).trans (by decide),
   (C5_amended.2.1 erosApproachNoTime erosNeo rfl rfl).trans (by decide),
   C5_amended.2.2 (Rat.divInt 15 100) 1⟩

/-!
Claim C6.
-/

/-- Claim C6: fullname is the designation followed by the parenthesized name
when the name is present (truthy), else the bare designation; and the NEO
with designation 433 and name Eros has fullname 433 (Eros). -/
theorem C6_fullname :
    (∀ (n : NearEarthObject) (d m : String),
      n.designation = .vStr d → n.name = .vStr m → m ≠ "" →
      n.fullname = d ++ " (" ++ m ++ ")") ∧
    (∀ (n : NearEarthObject) (d : String),
      n.designation = .vStr d → truthy n.name = false →
      n.fullname = d) ∧
    erosNeo.fullname = "433 (Eros)" := by
  refine ⟨?_, ?_, by decide⟩
  · intro n d m hd hm hne
    simp [NearEarthObject.fullname, hd, hm, truthy, pyStr, hne]
  · intro n d hd ht
    simp [NearEarthObject.fullname, hd, ht, pyStr]

/-- Claim C6 witness: the fullname derivation evaluated at the worked
example NEO and at a nameless NEO. -/
theorem C6_witness :
    erosNeo.fullname = "433 (Eros)" ∧
    NearEarthObject.fullname
      ⟨.vStr "2010 PK9", .vNone, .nan, .vBool true, []⟩ = "2010 PK9" :=
  ⟨(C6_fullname.1 erosNeo "433" "Eros" rfl rfl (by decide)).trans (by decide),
   C6_fullname.2.1 ⟨.vStr "2010 PK9", .vNone, .nan, .vBool true, []⟩
     "2010 PK9" rfl (by decide)⟩

/-!
Claim C7.
-/

/-- Claim C7: serialize returns a flat mapping with the fixed canonical
keys, and neither the approach collection of the NEO nor the neo link of the
approach appears among them. -/
theorem C7_serialize_flat :
    (∀ n : NearEarthObject,
      n.serialize.map Prod.fst =
        ["Designation", "Name", "Diameter_km", "Potentially_hazardous"]) ∧
    (∀ n : NearEarthObject, ¬ ("approaches" ∈ n.serialize.map Prod.fst)) ∧
    (∀ (c : CloseApproach) (l : Info), c.serialize = .ok l →
      l.map Prod.fst = ["Datetime_utc", "Distance_au", "Velocity_km_s"] ∧
      ¬ ("neo" ∈ l.map Prod.fst)) := by
  refine ⟨fun n => by simp [NearEarthObject.serialize],
    fun n => by simp [NearEarthObject.serialize], ?_⟩
  intro c l h
  cases htv : datetime_to_strV c.time with
  | ok s =>
    simp [CloseApproach.serialize, htv, bindE_ok] at h
    subst h
    simp
  | error e =>
    simp [CloseApproach.serialize, htv, bindE_err] at h

/-- Claim C7 witness: the CloseApproach part evaluated at the worked
example approach, whose serialization succeeds. -/
theorem C7_witness :
    [("Datetime_utc", Value.vStr "1900-12-27 01:30"),
     ("Distance_au", Value.vFloat (.val (Rat.divInt 15 100))),
     ("Velocity_km_s", Value.vFloat (.val (Rat.divInt 665 100)))].map
       Prod.fst = ["Datetime_utc", "Distance_au", "Velocity_km_s"] ∧
    ¬ ("neo" ∈ [("Datetime_utc", Value.vStr "1900-12-27 01:30"),
     ("Distance_au", Value.vFloat (.val (Rat.divInt 15 100))),
     ("Velocity_km_s", Value.vFloat (.val (Rat.divInt 665 100)))].map
       Prod.fst) :=
  C7_serialize_flat.2.2 erosApproach _ (by decide)

/-!
Claim C8.
-/

/-- Claim C8: a query with no filters returns the full approach collection
itself — every CloseApproach exactly once, in the original insertion order
(database modelled from the spec, since the class is not under src/). -/
theorem C8_query_no_filters (db : NEODatabase) :
    db.query [] = db.approaches := by
  simp [NEODatabase.query]

/-- Claim C8 witness: the unfiltered query evaluated on a concrete database
holding the worked example objects. -/
theorem C8_witness :
    NEODatabase.query ⟨[erosNeo], [erosApproach, erosApproachNoTime]⟩ [] =
      [erosApproach, erosApproachNoTime] :=
  C8_query_no_filters ⟨[erosNeo], [erosApproach, erosApproachNoTime]⟩

/-!
Claim C9.
-/

theorem callNeo4 (a b c d : Value) :
    callNearEarthObjectPositional [a, b, c, d] =
      .error "TypeError: NearEarthObject.__init__() takes 1 positional argument but 5 were given" := by
  simp [callNearEarthObjectPositional]
  decide

theorem callCA4 (a b c d : Value) :
    callCloseApproachPositional [a, b, c, d] =
      .error "TypeError: CloseApproach.__init__() takes 1 positional argument but 5 were given" := by
  simp [callCloseApproachPositional]
  decide

/-- Claim C9: with at least one record, the loaders raise TypeError from
calling the keyword-only constructors with positional arguments and return
no records (stated under the benign precondition that the float conversions
performed on the first record before the constructor call succeed, which
holds for every well-formed data row). -/
theorem C9_loaders_type_error :
    (∀ (r : NeoRow) (rs : List NeoRow),
      (r.diameter = "" ∨ ∃ f, pyFloatOfString r.diameter = some f) →
      load_neos (r :: rs) =
        .error "TypeError: NearEarthObject.__init__() takes 1 positional argument but 5 were given") ∧
    (∀ (a : CadRow) (rest : List CadRow) (fd fv : PyFloat),
      pyFloatOfString a.distance = some fd →
      pyFloatOfString a.velocity = some fv →
      load_approaches (a :: rest) =
        .error "TypeError: CloseApproach.__init__() takes 1 positional argument but 5 were given") := by
  constructor
  · intro r rs h
    have hrow : load_neosRow r =
        .error "TypeError: NearEarthObject.__init__() takes 1 positional argument but 5 were given" := by
      by_cases hd : r.diameter = ""
      · simp [load_neosRow, hd, callNeo4, bindE_ok]
      · rcases h with h | ⟨f, hf⟩
        · exact absurd h hd
        · simp [load_neosRow, hd, pyFloatCoerce, hf, callNeo4, bindE_ok]
    simp [load_neos, hrow, bindE_err]
  · intro a rest fd fv hfd hfv
    have hrow : load_approachesRow a =
        .error "TypeError: CloseApproach.__init__() takes 1 positional argument but 5 were given" := by
      simp [load_approachesRow, pyFloatCoerce, hfd, hfv, callCA4, bindE_ok]
    simp [load_approaches, hrow, bindE_err]

/-- Claim C9 witness: the loaders evaluated on one well-formed record each
(the worked example data). -/
theorem C9_witness :
    load_neos [⟨"433", "Eros", "16.84", "N"⟩] =
      .error "TypeError: NearEarthObject.__init__() takes 1 positional argument but 5 were given" ∧
    load_approaches [⟨"433", "1900-Dec-27 01:30", "0.15", "6.65"⟩] =
      .error "TypeError: CloseApproach.__init__() takes 1 positional argument but 5 were given" :=
  ⟨C9_loaders_type_error.1 ⟨"433", "Eros", "16.84", "N"⟩ []
      (Or.inr ⟨.val (Rat.divInt 1684 100), by decide⟩),
   C9_loaders_type_error.2 ⟨"433", "1900-Dec-27 01:30", "0.15", "6.65"⟩ []
      (.val (Rat.divInt 15 100)) (.val (Rat.divInt 665 100)) (by decide)
      (by decide)⟩

/-!
Claim C10.
-/

/-- Claim C10: whenever the time is set (truthy), time_str raises NameError
for the unbound name datetime_to_string, and the str and repr forms, which
evaluate it first, propagate that NameError; when the time is absent,
time_str returns Unknown time. -/
theorem C10_time_str_nameerror :
    (∀ c : CloseApproach, truthy c.time = true →
      c.time_str = .error ("NameError: name " ++ squote ++
        "datetime_to_string" ++ squote ++ " is not defined") ∧
      c.str = .error ("NameError: name " ++ squote ++
        "datetime_to_string" ++ squote ++ " is not defined") ∧
      c.reprStr = .error ("NameError: name " ++ squote ++
        "datetime_to_string" ++ squote ++ " is not defined")) ∧
    (∀ c : CloseApproach, truthy c.time = false →
      c.time_str = .ok "Unknown time") := by
  constructor
  · intro c ht
    refine ⟨?_, ?_, ?_⟩ <;>
      simp [CloseApproach.time_str, CloseApproach.str, CloseApproach.reprStr,
        ht, bindE_ok, bindE_err]
  · intro c ht
    simp [CloseApproach.time_str, ht]

/-- Claim C10 witness: the claim evaluated at the worked example approach
with its parsed (truthy) time and at the same approach with its time
absent. -/
theorem C10_witness :
    erosApproach.time_str = .error ("NameError: name " ++ squote ++
      "datetime_to_string" ++ squote ++ " is not defined") ∧
    erosApproach.str = .error ("NameError: name " ++ squote ++
      "datetime_to_string" ++ squote ++ " is not defined") ∧
    erosApproachNoTime.time_str = .ok "Unknown time" :=
  ⟨(C10_time_str_nameerror.1 erosApproach rfl).1,
   (C10_time_str_nameerror.1 erosApproach rfl).2.1,
   C10_time_str_nameerror.2 erosApproachNoTime rfl⟩

end NEO
